import Mathlib

/-!
Verification of the server-side RPC dispatch, forwarding and blocking-query
core of `nomad/rpc.go`, as a shallow embedding.  Durations are modelled as
`Int` nanoseconds (Go `time.Duration` is an int64 nanosecond count), byte
tags as `Nat`, and the goto loops of `forward` and `blockingRPC` as
fuel-indexed recursions over per-iteration oracles for the impure inputs
(time, randomness, leadership, channel events).
-/

namespace Nomad

/-! ## Constants from rpc.go -/

/-- maxQueryTime bounds a blocking query: 300s in nanoseconds. -/
def maxQueryTime : Int := 300 * 1000000000

/-- defaultQueryTime is used when no wait time is specified: 300s in ns. -/
def defaultQueryTime : Int := 300 * 1000000000

/-- Warn if the Raft command is larger than this (1 MiB). -/
def raftWarnSize : Nat := 1024 * 1024

/-- enqueueLimit caps how long we wait to enqueue a Raft command: 30s in ns. -/
def enqueueLimit : Int := 30 * 1000000000

/-- Modelled from the spec: `structs.JitterFraction` (nomad/structs, not under
src/), the positive integer divisor producing the jitter range; the spec's
end-to-end scenarios use 16. -/
def JitterFraction : Int := 16

/-- Modelled from the spec: `lib.RandomStagger` (consul lib dependency) returns
a random duration in `[0, intv)`; `r` stands for the `rand.Int63()` draw, and a
zero interval yields zero. -/
def randomStagger (intv : Int) (r : Nat) : Int :=
  if intv = 0 then 0 else (r : Int) % intv

/-! ## Frame tags

Modelled from the spec: the byte values come from the `helper/pool` package
(nomad repository code not under src/); the spec fixes only the closed set
{RPC, CONSENSUS, MUX_V1, TLS, STREAM, MUX_V2}, so we use consecutive bytes. -/

def RpcNomad : Nat := 1
def RpcRaft : Nat := 2
def RpcMultiplex : Nat := 3
def RpcTLS : Nat := 4
def RpcStreaming : Nat := 5
def RpcMultiplexV2 : Nat := 6

/-! ## Frame demultiplexer (handleConn) -/

/-- The configuration bits of the server that `handleConn` consults, together
with the outcome of a TLS handshake attempt on this connection. -/
structure TLSServerConfig where
  enableRPC : Bool
  rpcUpgradeMode : Bool
  tlsConfigured : Bool
  handshakeOk : Bool
  deriving Repr, DecidableEq

/-- Where a connection ends up after `handleConn`: closed with no handler
dispatched, or dispatched to one of the five sub-protocol handlers, recording
the TLS flag of the connection context the handler sees. -/
inductive ConnOutcome where
  | closed
  | nomadConn (tlsCtx : Bool)
  | raftHandoff (tlsCtx : Bool)
  | multiplex (tlsCtx : Bool)
  | streaming (tlsCtx : Bool)
  | multiplexV2 (tlsCtx : Bool)
  deriving Repr, DecidableEq

/-- Function `handleConn` from rpc.go: read one byte of the stream; if RPC TLS is
required, the context is not yet TLS and the tag is not the TLS tag, close
unless `RPCUpgradeMode` is set; then switch on the tag.  The TLS tag wraps the
connection, forces the handshake and re-enters recursively with the context's
TLS flag set; an empty stream is the failed first-byte read. -/
def handleConn (cfg : TLSServerConfig) : List Nat → Bool → ConnOutcome
  | [], _ => .closed
  | b :: rest, ctxTLS =>
    if cfg.enableRPC = true ∧ ctxTLS = false ∧ b ≠ RpcTLS ∧ cfg.rpcUpgradeMode = false then
      .closed
    else if b = RpcNomad then .nomadConn ctxTLS
    else if b = RpcRaft then .raftHandoff ctxTLS
    else if b = RpcMultiplex then .multiplex ctxTLS
    else if b = RpcTLS then
      if cfg.tlsConfigured = false then .closed
      else if cfg.handshakeOk = false then .closed
      else handleConn cfg rest true
    else if b = RpcStreaming then .streaming ctxTLS
    else if b = RpcMultiplexV2 then .multiplexV2 ctxTLS
    else .closed

/-! ## Streaming RPC carrier (handleStreamingConn) -/

/-- Modelled from the spec: the streaming handler registry
(`structs.StreamingRpcRegistry`, not under src/) answers a lookup miss with a
handler-not-found error naming the method; only its non-emptiness matters. -/
def unknownMethodError (method : String) : String :=
  "Unknown rpc method: " ++ method

/-- The impure inputs of one `handleStreamingConn` call: the decode of the
`{Method}` header (`none` is a decode error), the handler registry, and
whether encoding the acknowledgement onto the connection succeeds. -/
structure StreamingEnv where
  headerDecode : Option String
  hasHandler : String → Bool
  ackEncodeOk : Bool

/-- The `Error` field placed into the acknowledgement for a given method:
empty when the registry has a handler, the lookup error's text otherwise. -/
def streamAckError (env : StreamingEnv) (method : String) : String :=
  if env.hasHandler method then "" else unknownMethodError method

/-- Observable outcome of `handleStreamingConn`: how many times the carrier
called `encoder.Encode(ack)`, the `Error` value actually delivered when that
encode succeeded, whether the handler was invoked, and whether the connection
ends up closed by the carrier (the deferred close). -/
structure StreamingResult where
  ackEncodeAttempts : Nat
  ackDelivered : Option String
  handlerInvoked : Bool
  closed : Bool
  deriving Repr, DecidableEq

/-- Function `handleStreamingConn` from rpc.go: decode the header (errors close without
any acknowledgement), look up the handler recording its error string in the
ack, encode the ack (an encode error closes), then close if the ack carried an
error and otherwise invoke the handler. -/
def handleStreamingConn (env : StreamingEnv) : StreamingResult :=
  match env.headerDecode with
  | none => ⟨0, none, false, true⟩
  | some method =>
    let ackError := streamAckError env method
    if env.ackEncodeOk = false then ⟨1, none, false, true⟩
    else if ackError ≠ "" then ⟨1, some ackError, false, true⟩
    else ⟨1, some "", true, true⟩

/-! ## Consensus submission (raftApplyFuture) -/

/-- Observable outcome of `raftApplyFuture`: whether the size warning was
logged, whether `raft.Apply` was reached, and whether encoding failed. -/
structure RaftApplyResult where
  warned : Bool
  submitted : Bool
  encodeError : Bool
  deriving Repr, DecidableEq

/-- Function `raftApplyFuture` from rpc.go, abstracted over the encoder: the argument
is `structs.Encode`'s outcome, `some n` being a buffer of `n` bytes.  A warn
fires when the buffer is strictly larger than `raftWarnSize`; the buffer is
submitted to raft either way. -/
def raftApplyFuture (encodeResult : Option Nat) : RaftApplyResult :=
  match encodeResult with
  | none => ⟨false, false, true⟩
  | some n => ⟨decide (raftWarnSize < n), true, false⟩

/-! ## Forwarder (forward, getLeader, forwardLeader, forwardRegion) -/

/-- A peer server record (`serverParts`): the fields the forwarder reads. -/
structure ServerParts where
  region : String
  addr : String
  majorVersion : Nat
  deriving Repr, DecidableEq

instance : Inhabited ServerParts := ⟨⟨"", "", 0⟩⟩

/-- The errors the forwarding path can surface. `poolErr` stands for an error
coming back from `connPool.RPC`. -/
inductive RpcError where
  | noLeader
  | noRegionPath
  | missingRegion
  | invalidServer
  | poolErr (s : String)
  deriving Repr, DecidableEq

/-- The request-info capability of `structs.RPCInfo` as the forwarder reads
it at entry; `SetForwarded` calls are recorded in the result instead. -/
structure RPCInfo where
  requestRegion : String
  isRead : Bool
  allowStaleRead : Bool
  deriving Repr, DecidableEq

/-- Impure inputs of one `forward` call.  The leader-gate loop's iterations
are indexed by `Nat`: `isLeaderAt i`, `raftLeaderAt i` and `timeAt i` are what
`IsLeader()`, `raft.Leader()` and `time.Now()` answer on the i-th pass (the
two consecutive `time.Now` calls of one pass are modelled as one instant),
`staggerAt i` is the `rand.Int63` draw for the i-th jitter sleep and
`shutdownAt i` says whether the shutdown channel fires during that sleep.
`randIntn` is the `rand.Intn` draw of `forwardRegion`, and `poolRPC region
addr major method` is the connection pool's verdict. -/
structure ForwardEnv where
  localRegion : String
  rpcHoldTimeout : Int
  peers : String → List ServerParts
  localPeers : String → Option ServerParts
  isLeaderAt : Nat → Bool
  raftLeaderAt : Nat → String
  timeAt : Nat → Int
  randIntn : Nat
  staggerAt : Nat → Nat
  shutdownAt : Nat → Bool
  poolRPC : String → String → Nat → String → Option RpcError

/-- Function `getLeader` from rpc.go on the i-th pass: self-leadership first, then the
raft leader address (empty means unknown), then the local-peer lookup, which
may still be `none` when membership lags. -/
def getLeader (env : ForwardEnv) (i : Nat) : Bool × Option ServerParts :=
  if env.isLeaderAt i then (true, none)
  else
    let leader := env.raftLeaderAt i
    if leader = "" then (false, none)
    else (false, env.localPeers leader)

/-- Function `forwardLeader` from rpc.go: a nil server yields `ErrNoLeader`, otherwise
the pool RPC against the local region at the leader's address. -/
def forwardLeader (env : ForwardEnv) (server : Option ServerParts)
    (method : String) : Option RpcError :=
  match server with
  | none => some .noLeader
  | some s => env.poolRPC env.localRegion s.addr s.majorVersion method

/-- Function `forwardServer` from rpc.go: like `forwardLeader` but a nil server is a
generic invalid-server error. -/
def forwardServer (env : ForwardEnv) (server : Option ServerParts)
    (method : String) : Option RpcError :=
  match server with
  | none => some .invalidServer
  | some s => env.poolRPC env.localRegion s.addr s.majorVersion method

/-- Function `forwardRegion` from rpc.go: no known servers for the region is
`ErrNoRegionPath`; otherwise a uniformly random offset (`rand.Intn`, modelled
as the draw modulo the length, which keeps the offset in range so the
`getD` default is never used) picks the server for the pool RPC. -/
def forwardRegion (env : ForwardEnv) (region method : String) : Option RpcError :=
  let servers := env.peers region
  if servers.length = 0 then some .noRegionPath
  else
    let offset := env.randIntn % servers.length
    let server := servers.getD offset default
    env.poolRPC region server.addr server.majorVersion method

/-- Observable outcome of `forward`: the `(handled, err)` pair, whether
`SetForwarded` was called, how many times `getLeader` ran, and the list of
jitter sleeps completed in the leader gate (in order). -/
structure ForwardResult where
  handled : Bool
  err : Option RpcError
  setForwardedCalled : Bool
  leaderChecks : Nat
  sleeps : List Int
  deriving Repr, DecidableEq

/-- The CHECK_LEADER goto loop of `forward`, fuel-indexed (`none` is fuel
exhaustion, which the real loop cannot hit because wall-clock time eventually
leaves the hold window).  `i` numbers the pass, `firstCheck` is the
`firstCheck` variable (`none` is Go's zero `time.Time`).  A completed jitter
sleep is prepended to the recursive result's trace; a shutdown during the
sleep falls through to the `ErrNoLeader` return without another check. -/
def checkLeader (env : ForwardEnv) (method : String) :
    Nat → Nat → Option Int → Option ForwardResult
  | 0, _, _ => none
  | fuel + 1, i, firstCheck =>
    match getLeader env i with
    | (true, _) => some ⟨false, none, false, i + 1, []⟩
    | (false, some server) =>
      some ⟨true, forwardLeader env (some server) method, true, i + 1, []⟩
    | (false, none) =>
      let fc := firstCheck.getD (env.timeAt i)
      if env.timeAt i - fc < env.rpcHoldTimeout then
        let jitter := randomStagger (env.rpcHoldTimeout / JitterFraction) (env.staggerAt i)
        if env.shutdownAt i then
          some ⟨true, some .noLeader, false, i + 1, []⟩
        else
          match checkLeader env method fuel (i + 1) (some fc) with
          | none => none
          | some r => some { r with sleeps := jitter :: r.sleeps }
      else
        some ⟨true, some .noLeader, false, i + 1, []⟩

/-- Function `forward` from rpc.go: missing region, cross-region forwarding (with
`SetForwarded`), the stale-read fast path, then the leader gate. -/
def forward (env : ForwardEnv) (method : String) (info : RPCInfo)
    (fuel : Nat) : Option ForwardResult :=
  if info.requestRegion = "" then
    some ⟨true, some .missingRegion, false, 0, []⟩
  else if info.requestRegion ≠ env.localRegion then
    some ⟨true, forwardRegion env info.requestRegion method, true, 0, []⟩
  else if info.isRead = true ∧ info.allowStaleRead = true then
    some ⟨false, none, false, 0, []⟩
  else
    checkLeader env method fuel 0 none

/-! ## Blocking-query engine (setQueryMeta, blockingRPC) -/

/-- The two `structs.QueryOptions` fields `blockingRPC` reads and writes. -/
structure QueryOptions where
  minQueryIndex : Nat
  maxQueryTime : Int
  deriving Repr, DecidableEq

/-- The `structs.QueryMeta` fields the engine populates. -/
structure QueryMeta where
  index : Nat
  lastContact : Int
  knownLeader : Bool
  deriving Repr, DecidableEq

/-- Impure inputs of one `blockingRPC` call, indexed by the RUN_QUERY pass
number `i`: leadership and leader address for `setQueryMeta`, the error and
the `meta.Index` produced by the i-th invocation of the query function, and
what `ws.WatchCtx(ctx)` answers after the i-th run (`true` means a watched
channel fired, i.e. a nil error; `false` means the deadline context fired).
`staggerRand` is the `rand.Int63` draw behind the jitter. -/
structure BlockingEnv where
  isLeaderAt : Nat → Bool
  lastContactAgoAt : Nat → Int
  raftLeaderAt : Nat → String
  runErr : Nat → Option String
  runIndex : Nat → Nat
  watchFired : Nat → Bool
  staggerRand : Nat

/-- Function `setQueryMeta` from rpc.go on the i-th pass. -/
def setQueryMeta (env : BlockingEnv) (i : Nat) (m : QueryMeta) : QueryMeta :=
  if env.isLeaderAt i then { m with lastContact := 0, knownLeader := true }
  else { m with lastContact := env.lastContactAgoAt i,
                knownLeader := env.raftLeaderAt i != "" }

/-- The clamp `blockingRPC` applies to `MaxQueryTime`: over `maxQueryTime` is
cut to `maxQueryTime`; zero or negative becomes `defaultQueryTime`. -/
def clampedQueryTime (t : Int) : Int :=
  if maxQueryTime < t then maxQueryTime
  else if t ≤ 0 then defaultQueryTime
  else t

/-- The value `blockingRPC` leaves in `MaxQueryTime` for a blocking query: the
clamp plus a `RandomStagger` jitter over a `JitterFraction`-th of the clamp. -/
def effectiveQueryTime (env : BlockingEnv) (t : Int) : Int :=
  clampedQueryTime t + randomStagger (clampedQueryTime t / JitterFraction) env.staggerRand

/-- Observable outcome of `blockingRPC`: the returned error, the final meta,
the query options as the call leaves them (it mutates them in place), how many
times the query function ran, whether a watch set was constructed and handed
to it (`false` means it received Go's nil watch set), and whether a deadline
context was set up. -/
structure BlockingResult where
  err : Option String
  meta : QueryMeta
  finalOpts : QueryOptions
  runCount : Nat
  watchSetUsed : Bool
  deadlineArmed : Bool
  deriving Repr, DecidableEq

/-- The RUN_QUERY goto loop of `blockingRPC`, fuel-indexed (`none` is fuel
exhaustion, which the real loop cannot hit because the deadline context
eventually fires).  Each pass updates the meta, constructs a watch set only
when `MinQueryIndex > 0`, runs the query function, and re-runs only when it
succeeded without reaching an index beyond `MinQueryIndex` and a watched
channel (not the deadline) woke the wait. -/
def runQuery (env : BlockingEnv) (opts : QueryOptions) (deadlineArmed : Bool) :
    Nat → Nat → QueryMeta → Option BlockingResult
  | 0, _, _ => none
  | fuel + 1, i, meta =>
    let meta1 := setQueryMeta env i meta
    let wsUsed := decide (0 < opts.minQueryIndex)
    let err := env.runErr i
    let meta2 := { meta1 with index := env.runIndex i }
    if err = none ∧ 0 < opts.minQueryIndex ∧ meta2.index ≤ opts.minQueryIndex then
      if env.watchFired i then
        runQuery env opts deadlineArmed fuel (i + 1) meta2
      else
        some ⟨err, meta2, opts, i + 1, wsUsed, deadlineArmed⟩
    else
      some ⟨err, meta2, opts, i + 1, wsUsed, deadlineArmed⟩

/-- Function `blockingRPC` from rpc.go: `MinQueryIndex = 0` jumps straight into
RUN_QUERY with no clamp, no jitter and no deadline context; otherwise
`MaxQueryTime` is clamped and jittered in place and a deadline context is
armed before entering the loop. -/
def blockingRPC (env : BlockingEnv) (opts : QueryOptions) (meta : QueryMeta)
    (fuel : Nat) : Option BlockingResult :=
  if opts.minQueryIndex = 0 then
    runQuery env opts false fuel 0 meta
  else
    runQuery env { opts with maxQueryTime := effectiveQueryTime env opts.maxQueryTime }
      true fuel 0 meta

/-! ## Concrete inputs used by counterexamples and witnesses -/

/-- Configuration for the C1 witness: TLS required, upgrade-tolerant mode off. -/
def c1WitnessCfg : TLSServerConfig := ⟨true, false, false, false⟩

/-- Environment refuting C2 as stated: the header decodes to a method with a
registered handler, but encoding the acknowledgement onto the connection
fails. -/
def c2CounterEnv : StreamingEnv :=
  { headerDecode := some "FileSystem.Logs"
    hasHandler := fun _ => true
    ackEncodeOk := false }

/-- Environment for the C2 witness: header decodes, handler registered, and
the acknowledgement encodes successfully. -/
def c2WitnessEnv : StreamingEnv :=
  { headerDecode := some "Agent.Monitor"
    hasHandler := fun _ => true
    ackEncodeOk := true }

/-- A forwarding environment for the C3 witness: a follower of region "east"
with no elected leader, a 32ns hold timeout, time advancing 20ns per gate
check, and no shutdown. -/
def c3WitnessEnv : ForwardEnv :=
  { localRegion := "east"
    rpcHoldTimeout := 32
    peers := fun _ => []
    localPeers := fun _ => none
    isLeaderAt := fun _ => false
    raftLeaderAt := fun _ => ""
    timeAt := fun i => 20 * (i : Int)
    randIntn := 0
    staggerAt := fun _ => 1
    shutdownAt := fun _ => false
    poolRPC := fun _ _ _ _ => none }

/-- A local-region write request used by the C3 and C10 witnesses. -/
def c3WitnessInfo : RPCInfo := ⟨"east", false, false⟩

/-- A forwarding environment for the C7 witness: local region "east", three
known servers in region "west", and a pool that reports which address it was
pointed at. -/
def c7WitnessEnv : ForwardEnv :=
  { localRegion := "east"
    rpcHoldTimeout := 32
    peers := fun r =>
      if r = "west" then
        [⟨"west", "west-a", 1⟩, ⟨"west", "west-b", 1⟩, ⟨"west", "west-c", 1⟩]
      else []
    localPeers := fun _ => none
    isLeaderAt := fun _ => false
    raftLeaderAt := fun _ => ""
    timeAt := fun _ => 0
    randIntn := 4
    staggerAt := fun _ => 0
    shutdownAt := fun _ => false
    poolRPC := fun _ addr _ _ => some (.poolErr addr) }

/-- A cross-region read request used by the C7 witness. -/
def c7WitnessInfo : RPCInfo := ⟨"west", false, false⟩

/-- A forwarding environment for the C10 witness: like the C3 one but the
shutdown channel fires during the first jitter sleep. -/
def c10WitnessEnv : ForwardEnv :=
  { localRegion := "east"
    rpcHoldTimeout := 32
    peers := fun _ => []
    localPeers := fun _ => none
    isLeaderAt := fun _ => false
    raftLeaderAt := fun _ => ""
    timeAt := fun _ => 0
    randIntn := 0
    staggerAt := fun _ => 1
    shutdownAt := fun _ => true
    poolRPC := fun _ _ _ _ => none }

/-- A zeroed reply meta, as a handler allocates it before a blocking query. -/
def queryMeta0 : QueryMeta := { index := 0, lastContact := 0, knownLeader := false }

/-- Blocking environment for the C4 witness: every run succeeds at index 100
(never past the min index), the watch set wakes twice, then the deadline
context fires. -/
def c4WitnessEnv : BlockingEnv :=
  { isLeaderAt := fun _ => true
    lastContactAgoAt := fun _ => 0
    raftLeaderAt := fun _ => ""
    runErr := fun _ => none
    runIndex := fun _ => 100
    watchFired := fun j => decide (j < 2)
    staggerRand := 7 }

/-- Query options for the C4 witness: blocking at min index 100. -/
def c4WitnessOpts : QueryOptions := { minQueryIndex := 100, maxQueryTime := 200000000 }

/-- Blocking environment for the C5 witness: a follower with a known leader;
the watch would fire, but a non-blocking query never waits on it. -/
def c5WitnessEnv : BlockingEnv :=
  { isLeaderAt := fun _ => false
    lastContactAgoAt := fun _ => 5
    raftLeaderAt := fun _ => "10.0.0.1:4647"
    runErr := fun _ => none
    runIndex := fun _ => 42
    watchFired := fun _ => true
    staggerRand := 9 }

/-- Query options for the C5 witness: min index 0 and a negative max wait,
which the non-blocking fast path never even clamps. -/
def c5WitnessOpts : QueryOptions := { minQueryIndex := 0, maxQueryTime := -7 }

/-- Blocking environment for the C6 witness: one run that immediately passes
the min index; stagger draw 23. -/
def c6WitnessEnv : BlockingEnv :=
  { isLeaderAt := fun _ => true
    lastContactAgoAt := fun _ => 0
    raftLeaderAt := fun _ => ""
    runErr := fun _ => none
    runIndex := fun _ => 50
    watchFired := fun _ => false
    staggerRand := 23 }

/-- Query options for the C6 witness: a requested wait of ten times the cap. -/
def c6WitnessOpts : QueryOptions := { minQueryIndex := 7, maxQueryTime := 3000000000000 }

/-- The result of the C6 witness query: the wait was clamped to 300s and
jittered by 23ns in place. -/
def c6WitnessResult : BlockingResult :=
  ⟨none, ⟨50, 0, true⟩, ⟨7, 300000000023⟩, 1, true, true⟩

/-- Query options shared by the C9 counterexample and witness: blocking, with
a 160ns max wait (within bounds, so the clamp leaves it alone). -/
def c9Opts : QueryOptions := { minQueryIndex := 5, maxQueryTime := 160 }

/-- Environment refuting C9's "not the value the caller passed in": the
stagger draw 20 is a multiple of 160/16 = 10, so the jitter is zero and the
mutated `MaxQueryTime` coincides with the caller's value. -/
def c9CounterEnv : BlockingEnv :=
  { isLeaderAt := fun _ => true
    lastContactAgoAt := fun _ => 0
    raftLeaderAt := fun _ => ""
    runErr := fun _ => none
    runIndex := fun _ => 100
    watchFired := fun _ => false
    staggerRand := 20 }

/-- Environment for the C9 witness: stagger draw 23 gives jitter 23 % 10 = 3,
so the mutated `MaxQueryTime` becomes 163. -/
def c9WitnessEnv : BlockingEnv :=
  { isLeaderAt := fun _ => true
    lastContactAgoAt := fun _ => 0
    raftLeaderAt := fun _ => ""
    runErr := fun _ => none
    runIndex := fun _ => 100
    watchFired := fun _ => false
    staggerRand := 23 }

/-- The result of the C9 witness query: `MaxQueryTime` rewritten to 163. -/
def c9WitnessResult : BlockingResult :=
  ⟨none, ⟨100, 0, true⟩, ⟨5, 163⟩, 1, true, true⟩

/-! ## Helper lemmas -/

/-- A `RandomStagger` draw over a positive interval lands in `[0, intv)`. -/
theorem randomStagger_bounds (intv : Int) (r : Nat) (h : 0 < intv) :
    0 ≤ randomStagger intv r ∧ randomStagger intv r < intv := by
  unfold randomStagger
  rw [if_neg (by omega)]
  exact ⟨Int.emod_nonneg _ (by omega), Int.emod_lt_of_pos _ h⟩

/-- A `RandomStagger` draw never goes negative, whatever the interval. -/
theorem randomStagger_nonneg (intv : Int) (r : Nat) : 0 ≤ randomStagger intv r := by
  unfold randomStagger
  split
  · exact le_refl 0
  · exact Int.emod_nonneg _ (by assumption)

/-- Once the leader gate's first check has happened, as long as every later
check still finds no leader and no shutdown, the loop sleeps once per check
inside the hold window and returns `(true, ErrNoLeader)` at the first check at
or past the hold timeout, having slept exactly once per in-window check. -/
theorem checkLeader_gate_bound (env : ForwardEnv) (method : String)
    (hld : ∀ j, getLeader env j = (false, none))
    (hsd : ∀ j, env.shutdownAt j = false) :
    ∀ (k i fuel : Nat) (fc : Int),
      (∀ j, j < k → env.timeAt (i + j) - fc < env.rpcHoldTimeout) →
      env.rpcHoldTimeout ≤ env.timeAt (i + k) - fc →
      k + 1 ≤ fuel →
      checkLeader env method fuel i (some fc) =
        some ⟨true, some .noLeader, false, i + k + 1,
          (List.range k).map
            (fun j => randomStagger (env.rpcHoldTimeout / JitterFraction)
              (env.staggerAt (i + j)))⟩ := by
  intro k
  induction k with
  | zero =>
    intro i fuel fc hwin hout hfuel
    obtain ⟨f, rfl⟩ : ∃ f, fuel = f + 1 := ⟨fuel - 1, by omega⟩
    have hnot : ¬(env.timeAt i - fc < env.rpcHoldTimeout) :=
      not_lt.mpr (by simpa using hout)
    simp [checkLeader, hld i, hnot]
  | succ k ih =>
    intro i fuel fc hwin hout hfuel
    obtain ⟨f, rfl⟩ : ∃ f, fuel = f + 1 := ⟨fuel - 1, by omega⟩
    have hin : env.timeAt i - fc < env.rpcHoldTimeout := by
      simpa using hwin 0 (by omega)
    have hrec := ih (i + 1) f fc
      (fun j hj => by
        have := hwin (j + 1) (by omega)
        simpa [Nat.add_assoc, Nat.add_comm, Nat.add_left_comm] using this)
      (by
        have := hout
        simpa [Nat.add_assoc, Nat.add_comm, Nat.add_left_comm] using this)
      (by omega)
    simp only [checkLeader, hld i, hin, if_pos, hsd i, Option.getD_some, hrec,
      Bool.false_eq_true, if_false]
    refine congrArg some ?_
    refine congrArg₂ (fun n l => ForwardResult.mk true (some .noLeader) false n l) ?_ ?_
    · omega
    · rw [List.range_succ_eq_map, List.map_cons, List.map_map]
      refine congrArg₂ List.cons (by simp) ?_
      refine congrArg₂ List.map ?_ rfl
      funext j
      simp [Function.comp, Nat.add_assoc, Nat.add_comm, Nat.add_left_comm]

/-- C1: when the server requires RPC TLS, the connection context is not yet
TLS and the first frame byte is not the TLS tag, the demultiplexer closes the
connection with no handler dispatched unless upgrade-tolerant mode is on, in
which case dispatch proceeds on the non-TLS tag. -/
theorem c1_tls_enforcement (cfg : TLSServerConfig) (b : Nat) (rest : List Nat)
    (henable : cfg.enableRPC = true) (hb : b ≠ RpcTLS) :
    (cfg.rpcUpgradeMode = false → handleConn cfg (b :: rest) false = .closed) ∧
    (cfg.rpcUpgradeMode = true →
      (b = RpcNomad → handleConn cfg (b :: rest) false = .nomadConn false) ∧
      (b = RpcRaft → handleConn cfg (b :: rest) false = .raftHandoff false) ∧
      (b = RpcMultiplex → handleConn cfg (b :: rest) false = .multiplex false) ∧
      (b = RpcStreaming → handleConn cfg (b :: rest) false = .streaming false) ∧
      (b = RpcMultiplexV2 → handleConn cfg (b :: rest) false = .multiplexV2 false)) := by
  constructor
  · intro hmode
    simp [handleConn, henable, hb, hmode]
  · intro hmode
    refine ⟨?_, ?_, ?_, ?_, ?_⟩ <;> intro hbv <;> subst hbv <;>
      simp [handleConn, henable, hmode, RpcNomad, RpcRaft, RpcMultiplex, RpcTLS,
        RpcStreaming, RpcMultiplexV2]

/-- Witness for C1 at a concrete input: TLS required, context not TLS, Nomad
RPC tag, upgrade mode off: the connection is closed with no dispatch. -/
theorem c1_tls_enforcement_witness :
    handleConn c1WitnessCfg [RpcNomad] false = .closed :=
  (c1_tls_enforcement c1WitnessCfg RpcNomad [] rfl (by decide)).1 rfl

/-- C2 is false as stated: when the acknowledgement fails to encode, the ack's
error field is empty yet the handler is never invoked and no acknowledgement
is delivered, refuting both "the acknowledgement is sent exactly once" and
"whenever the error is empty, the handler is invoked". -/
theorem c2_counterexample :
    streamAckError c2CounterEnv "FileSystem.Logs" = "" ∧
    (handleStreamingConn c2CounterEnv).handlerInvoked = false ∧
    (handleStreamingConn c2CounterEnv).ackDelivered = none :=
  ⟨rfl, rfl, rfl⟩

/-- C2 (amended): provided the method header decodes, the carrier attempts to
encode the acknowledgement exactly once and the connection always ends up
closed by the carrier's deferred close; when the encode succeeds and the error
is non-empty the handler is never invoked; when the encode succeeds and the
error is empty the handler is invoked; when the encode fails the carrier
closes without invoking the handler. -/
theorem c2_streaming_ack (env : StreamingEnv) (method : String)
    (hdr : env.headerDecode = some method) :
    (handleStreamingConn env).ackEncodeAttempts = 1 ∧
    (handleStreamingConn env).closed = true ∧
    (env.ackEncodeOk = true → streamAckError env method ≠ "" →
      (handleStreamingConn env).ackDelivered = some (streamAckError env method) ∧
      (handleStreamingConn env).handlerInvoked = false) ∧
    (env.ackEncodeOk = true → streamAckError env method = "" →
      (handleStreamingConn env).ackDelivered = some "" ∧
      (handleStreamingConn env).handlerInvoked = true) ∧
    (env.ackEncodeOk = false →
      (handleStreamingConn env).ackDelivered = none ∧
      (handleStreamingConn env).handlerInvoked = false) := by
  cases hok : env.ackEncodeOk with
  | false => simp [handleStreamingConn, hdr, hok]
  | true =>
    by_cases hack : streamAckError env method = "" <;>
      simp [handleStreamingConn, hdr, hok, hack]

/-- Witness for C2 (amended) at a concrete input: a found handler and a
successful encode give one ack attempt and an invoked handler. -/
theorem c2_streaming_ack_witness :
    (handleStreamingConn c2WitnessEnv).ackEncodeAttempts = 1 ∧
    (handleStreamingConn c2WitnessEnv).handlerInvoked = true :=
  ⟨(c2_streaming_ack c2WitnessEnv "Agent.Monitor" rfl).1,
   ((c2_streaming_ack c2WitnessEnv "Agent.Monitor" rfl).2.2.2.1 rfl rfl).2⟩

/-- C3: in the local region with stale reads not allowed, when leader
discovery keeps failing, the gate retries exactly while the elapsed time since
the first failed lookup is below the hold timeout, each retry preceded by a
jitter sleep in [0, holdTimeout/JitterFraction), and the first check at or
past the hold timeout returns `(true, ErrNoLeader)`. -/
theorem c3_leader_gate (env : ForwardEnv) (method : String) (info : RPCInfo)
    (fuel k : Nat)
    (hne : info.requestRegion ≠ "")
    (hreg : info.requestRegion = env.localRegion)
    (hstale : ¬(info.isRead = true ∧ info.allowStaleRead = true))
    (hld : ∀ j, getLeader env j = (false, none))
    (hsd : ∀ j, env.shutdownAt j = false)
    (hpos : 0 < env.rpcHoldTimeout)
    (hjf : 0 < env.rpcHoldTimeout / JitterFraction)
    (hwin : ∀ j, j < k → env.timeAt j - env.timeAt 0 < env.rpcHoldTimeout)
    (hout : env.rpcHoldTimeout ≤ env.timeAt k - env.timeAt 0)
    (hfuel : k + 1 ≤ fuel) :
    ∃ sleeps : List Int,
      forward env method info fuel =
        some ⟨true, some .noLeader, false, k + 1, sleeps⟩ ∧
      sleeps.length = k ∧
      ∀ s ∈ sleeps, 0 ≤ s ∧ s < env.rpcHoldTimeout / JitterFraction := by
  obtain ⟨k, rfl⟩ : ∃ x, k = x + 1 := by
    cases k with
    | zero =>
      exfalso
      rw [sub_self] at hout
      omega
    | succ x => exact ⟨x, rfl⟩
  obtain ⟨f, rfl⟩ : ∃ f, fuel = f + 1 := ⟨fuel - 1, by omega⟩
  have hrec := checkLeader_gate_bound env method hld hsd k 1 f (env.timeAt 0)
    (fun j hj => by
      have := hwin (j + 1) (by omega)
      simpa [Nat.add_comm] using this)
    (by
      have := hout
      simpa [Nat.add_comm] using this)
    (by omega)
  have hin : env.timeAt 0 - env.timeAt 0 < env.rpcHoldTimeout := by
    rw [sub_self]; exact hpos
  refine ⟨randomStagger (env.rpcHoldTimeout / JitterFraction) (env.staggerAt 0) ::
      (List.range k).map
        (fun j => randomStagger (env.rpcHoldTimeout / JitterFraction)
          (env.staggerAt (1 + j))), ?_, ?_, ?_⟩
  · rw [forward, if_neg hne, if_neg (not_not_intro hreg), if_neg hstale]
    have harith : 1 + k + 1 = k + 1 + 1 := by omega
    rw [harith] at hrec
    simp only [checkLeader, hld 0, hsd 0, Option.getD_none, hin, if_pos, hrec,
      Bool.false_eq_true, if_false]
  · simp
  · intro s hs
    rcases List.mem_cons.mp hs with h | h
    · subst h
      exact randomStagger_bounds _ _ hjf
    · obtain ⟨j, _, rfl⟩ := List.mem_map.mp h
      exact randomStagger_bounds _ _ hjf

/-- Witness for C3 at a concrete input: hold timeout 32ns, time advancing
20ns per check and no leader: two retries, then `(true, ErrNoLeader)`. -/
theorem c3_leader_gate_witness :
    ∃ sleeps : List Int,
      forward c3WitnessEnv "Node.Register" c3WitnessInfo 3 =
        some ⟨true, some .noLeader, false, 3, sleeps⟩ ∧
      sleeps.length = 2 ∧
      ∀ s ∈ sleeps, 0 ≤ s ∧
        s < c3WitnessEnv.rpcHoldTimeout / JitterFraction :=
  c3_leader_gate c3WitnessEnv "Node.Register" c3WitnessInfo 3 2
    (by decide) rfl (by decide)
    (fun j => rfl) (fun j => rfl) (by decide) (by decide)
    (by
      intro j hj
      show 20 * (j : Int) - 20 * ((0 : Nat) : Int) < 32
      omega)
    (by decide) (by decide)

/-- C7: a request for another region is marked forwarded and handled by
`forwardRegion`, which answers `ErrNoRegionPath` when the peer directory has
no servers for the region and otherwise the connection-pool result against
the server at the random offset; the local handler never runs. -/
theorem c7_region_forward (env : ForwardEnv) (method : String) (info : RPCInfo)
    (fuel : Nat)
    (hne : info.requestRegion ≠ "")
    (hdiff : info.requestRegion ≠ env.localRegion) :
    forward env method info fuel =
      some ⟨true, forwardRegion env info.requestRegion method, true, 0, []⟩ ∧
    (env.peers info.requestRegion = [] →
      forwardRegion env info.requestRegion method = some .noRegionPath) ∧
    (env.peers info.requestRegion ≠ [] →
      env.randIntn % (env.peers info.requestRegion).length <
        (env.peers info.requestRegion).length ∧
      forwardRegion env info.requestRegion method =
        env.poolRPC info.requestRegion
          ((env.peers info.requestRegion).getD
            (env.randIntn % (env.peers info.requestRegion).length) default).addr
          ((env.peers info.requestRegion).getD
            (env.randIntn % (env.peers info.requestRegion).length) default).majorVersion
          method) := by
  refine ⟨?_, ?_, ?_⟩
  · rw [forward, if_neg hne, if_pos hdiff]
  · intro hnil
    simp [forwardRegion, hnil]
  · intro hnil
    have hlen : 0 < (env.peers info.requestRegion).length := List.length_pos.mpr hnil
    refine ⟨Nat.mod_lt _ hlen, ?_⟩
    rw [forwardRegion]
    simp only [if_neg (Nat.pos_iff_ne_zero.mp hlen)]

/-- Witness for C7 at a concrete input: three servers in region "west" and
random draw 4 pick the server at offset 1; the pool's verdict is returned with
`handled = true`. -/
theorem c7_region_forward_witness :
    forward c7WitnessEnv "Node.GetNode" c7WitnessInfo 5 =
      some ⟨true, forwardRegion c7WitnessEnv "west" "Node.GetNode", true, 0, []⟩ ∧
    forwardRegion c7WitnessEnv "west" "Node.GetNode" =
      some (RpcError.poolErr "west-b") :=
  ⟨(c7_region_forward c7WitnessEnv "Node.GetNode" c7WitnessInfo 5
      (by decide) (by decide)).1, by rfl⟩

/-- C10: when the shutdown channel fires during the leader-gate jitter sleep,
`forward` returns `(true, ErrNoLeader)` after a single leader check, without
re-checking the leader, even though the hold timeout has not elapsed. -/
theorem c10_shutdown_in_sleep (env : ForwardEnv) (method : String)
    (info : RPCInfo) (fuel : Nat)
    (hne : info.requestRegion ≠ "")
    (hreg : info.requestRegion = env.localRegion)
    (hstale : ¬(info.isRead = true ∧ info.allowStaleRead = true))
    (hld : getLeader env 0 = (false, none))
    (hsd : env.shutdownAt 0 = true)
    (hpos : 0 < env.rpcHoldTimeout)
    (hfuel : 1 ≤ fuel) :
    forward env method info fuel =
      some ⟨true, some .noLeader, false, 1, []⟩ := by
  obtain ⟨f, rfl⟩ : ∃ f, fuel = f + 1 := ⟨fuel - 1, by omega⟩
  have hin : env.timeAt 0 - env.timeAt 0 < env.rpcHoldTimeout := by
    rw [sub_self]; exact hpos
  rw [forward, if_neg hne, if_neg (not_not_intro hreg), if_neg hstale]
  simp only [checkLeader, hld, Option.getD_none, hin, if_pos, hsd, if_true]

/-- Witness for C10 at a concrete input: shutdown fires during the first
sleep, so one leader check and an immediate `(true, ErrNoLeader)`. -/
theorem c10_shutdown_in_sleep_witness :
    forward c10WitnessEnv "Node.Register" c3WitnessInfo 4 =
      some ⟨true, some .noLeader, false, 1, []⟩ :=
  c10_shutdown_in_sleep c10WitnessEnv "Node.Register" c3WitnessInfo 4
    (by decide) rfl (by decide) rfl rfl (by decide) (by decide)

/-- C8: a consensus submission warns exactly when the encoded buffer exceeds
1 MiB: 1048576 bytes does not warn, 1048577 does, and the payload is submitted
to raft in either case. -/
theorem c8_raft_warn_size (n : Nat) :
    (((raftApplyFuture (some n)).warned = true) ↔ raftWarnSize < n) ∧
    (raftApplyFuture (some n)).submitted = true ∧
    (raftApplyFuture (some 1048576)).warned = false ∧
    (raftApplyFuture (some 1048577)).warned = true := by
  refine ⟨?_, rfl, by decide, by decide⟩
  simp [raftApplyFuture]

/-- The RUN_QUERY loop never changes the options it entered with, the
deadline flag, or whether a watch set is constructed. -/
theorem runQuery_state_invariant (env : BlockingEnv) (opts : QueryOptions) (d : Bool) :
    ∀ (fuel i : Nat) (meta : QueryMeta) (r : BlockingResult),
      runQuery env opts d fuel i meta = some r →
      r.finalOpts = opts ∧ r.deadlineArmed = d ∧
      r.watchSetUsed = decide (0 < opts.minQueryIndex) := by
  intro fuel
  induction fuel with
  | zero =>
    intro i meta r h
    simp [runQuery] at h
  | succ fuel ih =>
    intro i meta r h
    simp only [runQuery] at h
    split at h
    · split at h
      · exact ih _ _ _ h
      · cases h
        exact ⟨rfl, rfl, rfl⟩
    · cases h
      exact ⟨rfl, rfl, rfl⟩

/-- Inside the RUN_QUERY loop of a blocking query whose runs keep succeeding
without passing the min index, the loop re-runs once per watch wake and, when
the deadline context ends the wait, returns a nil error carrying the last
run's meta. -/
theorem runQuery_deadline_return (env : BlockingEnv) (opts : QueryOptions)
    (d : Bool) (hmin : 0 < opts.minQueryIndex)
    (herr : ∀ i, env.runErr i = none)
    (hidx : ∀ i, env.runIndex i ≤ opts.minQueryIndex) :
    ∀ (k i fuel : Nat) (meta : QueryMeta),
      (∀ j, j < k → env.watchFired (i + j) = true) →
      env.watchFired (i + k) = false →
      k + 1 ≤ fuel →
      ∃ m : QueryMeta,
        runQuery env opts d fuel i meta =
          some ⟨none, m, opts, i + k + 1, decide (0 < opts.minQueryIndex), d⟩ ∧
        m.index = env.runIndex (i + k) := by
  intro k
  induction k with
  | zero =>
    intro i fuel meta hw hk hfuel
    obtain ⟨f, rfl⟩ : ∃ f, fuel = f + 1 := ⟨fuel - 1, by omega⟩
    refine ⟨{ setQueryMeta env i meta with index := env.runIndex i }, ?_, by simp⟩
    have hk0 : env.watchFired i = false := by simpa using hk
    simp [runQuery, herr i, hmin, hidx i, hk0]
  | succ k ih =>
    intro i fuel meta hw hk hfuel
    obtain ⟨f, rfl⟩ : ∃ f, fuel = f + 1 := ⟨fuel - 1, by omega⟩
    have hw0 : env.watchFired i = true := by simpa using hw 0 (by omega)
    obtain ⟨m, hm, hmi⟩ := ih (i + 1) f
      { setQueryMeta env i meta with index := env.runIndex i }
      (fun j hj => by
        have := hw (j + 1) (by omega)
        simpa [Nat.add_assoc, Nat.add_comm, Nat.add_left_comm] using this)
      (by
        have := hk
        simpa [Nat.add_assoc, Nat.add_comm, Nat.add_left_comm] using this)
      (by omega)
    have harith : i + 1 + k + 1 = i + (k + 1) + 1 := by omega
    rw [harith] at hm
    refine ⟨m, ?_, ?_⟩
    · simp [runQuery, herr i, hmin, hidx i, hw0, hm]
    · rw [hmi]
      exact congrArg env.runIndex (by omega)

/-- C4: a blocking query whose runs succeed but never pass the min index
before the deadline context fires returns a nil error, leaving the last run's
unsatisfying meta in place, instead of a timeout error. -/
theorem c4_deadline_nil_error (env : BlockingEnv) (opts : QueryOptions)
    (meta : QueryMeta) (fuel k : Nat)
    (hmin : 0 < opts.minQueryIndex)
    (herr : ∀ i, env.runErr i = none)
    (hidx : ∀ i, env.runIndex i ≤ opts.minQueryIndex)
    (hw : ∀ j, j < k → env.watchFired j = true)
    (hk : env.watchFired k = false)
    (hfuel : k + 1 ≤ fuel) :
    ∃ r : BlockingResult,
      blockingRPC env opts meta fuel = some r ∧
      r.err = none ∧
      r.meta.index = env.runIndex k ∧
      r.meta.index ≤ opts.minQueryIndex ∧
      r.runCount = k + 1 ∧
      r.deadlineArmed = true := by
  obtain ⟨m, hm, hmi⟩ := runQuery_deadline_return env
    { opts with maxQueryTime := effectiveQueryTime env opts.maxQueryTime } true
    hmin herr hidx k 0 fuel meta
    (fun j hj => by simpa using hw j hj)
    (by simpa using hk) hfuel
  rw [Nat.zero_add] at hm
  rw [Nat.zero_add] at hmi
  have hb : blockingRPC env opts meta fuel =
      some ⟨none, m,
        { opts with maxQueryTime := effectiveQueryTime env opts.maxQueryTime },
        k + 1, decide (0 < opts.minQueryIndex), true⟩ := by
    rw [blockingRPC, if_neg (Nat.pos_iff_ne_zero.mp hmin)]
    exact hm
  exact ⟨_, hb, rfl, hmi, by rw [hmi]; exact hidx k, rfl, rfl⟩

/-- Witness for C4 at a concrete input: three runs at index 100 against min
index 100, two watch wakes, then the deadline: nil error, meta.Index 100. -/
theorem c4_deadline_nil_error_witness :
    ∃ r : BlockingResult,
      blockingRPC c4WitnessEnv c4WitnessOpts queryMeta0 3 = some r ∧
      r.err = none ∧
      r.meta.index = c4WitnessEnv.runIndex 2 ∧
      r.meta.index ≤ c4WitnessOpts.minQueryIndex ∧
      r.runCount = 3 ∧
      r.deadlineArmed = true :=
  c4_deadline_nil_error c4WitnessEnv c4WitnessOpts queryMeta0 3 2
    (by decide) (fun i => rfl) (fun i => Nat.le_refl 100)
    (fun j hj => by simpa [c4WitnessEnv] using hj)
    (by decide) (by decide)

/-- C5: a query with min index 0 runs the query function exactly once with no
watch set, arms no deadline context, never re-runs, and leaves the options
untouched. -/
theorem c5_nonblocking_single_run (env : BlockingEnv) (opts : QueryOptions)
    (meta : QueryMeta) (fuel : Nat)
    (hmin : opts.minQueryIndex = 0) (hfuel : 1 ≤ fuel) :
    blockingRPC env opts meta fuel =
      some ⟨env.runErr 0,
        { setQueryMeta env 0 meta with index := env.runIndex 0 },
        opts, 1, false, false⟩ := by
  obtain ⟨f, rfl⟩ : ∃ f, fuel = f + 1 := ⟨fuel - 1, by omega⟩
  rw [blockingRPC, if_pos hmin]
  simp [runQuery, hmin]

/-- Witness for C5 at a concrete input: min index 0 with a watch that would
fire gives one run, no watch set, no deadline, options untouched. -/
theorem c5_nonblocking_single_run_witness :
    blockingRPC c5WitnessEnv c5WitnessOpts queryMeta0 1 =
      some ⟨c5WitnessEnv.runErr 0,
        { setQueryMeta c5WitnessEnv 0 queryMeta0 with index := c5WitnessEnv.runIndex 0 },
        c5WitnessOpts, 1, false, false⟩ :=
  c5_nonblocking_single_run c5WitnessEnv c5WitnessOpts queryMeta0 1 rfl (by decide)

/-- C6: a blocking query's effective max wait is the request clamped to
maxQueryTime (defaultQueryTime when zero or negative) plus a RandomStagger
jitter over a JitterFraction-th of the clamp, hence never more than
maxQueryTime plus that jitter. -/
theorem c6_effective_wait_bound (env : BlockingEnv) (opts : QueryOptions)
    (meta : QueryMeta) (fuel : Nat) (r : BlockingResult)
    (hmin : 0 < opts.minQueryIndex)
    (h : blockingRPC env opts meta fuel = some r) :
    r.finalOpts.maxQueryTime =
      clampedQueryTime opts.maxQueryTime +
        randomStagger (clampedQueryTime opts.maxQueryTime / JitterFraction)
          env.staggerRand ∧
    (maxQueryTime < opts.maxQueryTime →
      clampedQueryTime opts.maxQueryTime = maxQueryTime) ∧
    (opts.maxQueryTime ≤ 0 →
      clampedQueryTime opts.maxQueryTime = defaultQueryTime) ∧
    clampedQueryTime opts.maxQueryTime ≤ maxQueryTime ∧
    0 ≤ randomStagger (clampedQueryTime opts.maxQueryTime / JitterFraction)
      env.staggerRand ∧
    (0 < clampedQueryTime opts.maxQueryTime / JitterFraction →
      randomStagger (clampedQueryTime opts.maxQueryTime / JitterFraction)
          env.staggerRand <
        clampedQueryTime opts.maxQueryTime / JitterFraction) ∧
    r.finalOpts.maxQueryTime ≤
      maxQueryTime +
        randomStagger (clampedQueryTime opts.maxQueryTime / JitterFraction)
          env.staggerRand := by
  rw [blockingRPC, if_neg (Nat.pos_iff_ne_zero.mp hmin)] at h
  obtain ⟨hopts, -, -⟩ := runQuery_state_invariant env _ true fuel 0 meta r h
  have hmax : r.finalOpts.maxQueryTime =
      clampedQueryTime opts.maxQueryTime +
        randomStagger (clampedQueryTime opts.maxQueryTime / JitterFraction)
          env.staggerRand := by
    rw [hopts]
    rfl
  have hc3 : clampedQueryTime opts.maxQueryTime ≤ maxQueryTime := by
    by_cases h1 : maxQueryTime < opts.maxQueryTime
    · rw [clampedQueryTime, if_pos h1]
    · rw [clampedQueryTime, if_neg h1]
      by_cases h2 : opts.maxQueryTime ≤ 0
      · rw [if_pos h2]
        decide
      · rw [if_neg h2]
        omega
  refine ⟨hmax, ?_, ?_, hc3, randomStagger_nonneg _ _,
    fun hp => (randomStagger_bounds _ _ hp).2, ?_⟩
  · intro h1
    rw [clampedQueryTime, if_pos h1]
  · intro h2
    have h1 : ¬maxQueryTime < opts.maxQueryTime := by
      have : (0 : Int) < maxQueryTime := by decide
      omega
    rw [clampedQueryTime, if_neg h1, if_pos h2]
  · rw [hmax]
    exact add_le_add_right hc3 _

/-- Witness for C6 at a concrete input: a requested wait of 3000s is clamped
to 300s and jittered by 23ns, staying at most maxQueryTime plus the jitter. -/
theorem c6_effective_wait_bound_witness :
    c6WitnessResult.finalOpts.maxQueryTime =
      clampedQueryTime c6WitnessOpts.maxQueryTime +
        randomStagger (clampedQueryTime c6WitnessOpts.maxQueryTime / JitterFraction)
          c6WitnessEnv.staggerRand ∧
    c6WitnessResult.finalOpts.maxQueryTime ≤
      maxQueryTime +
        randomStagger (clampedQueryTime c6WitnessOpts.maxQueryTime / JitterFraction)
          c6WitnessEnv.staggerRand :=
  ⟨(c6_effective_wait_bound c6WitnessEnv c6WitnessOpts queryMeta0 1 c6WitnessResult
      (by decide) (by decide)).1,
   (c6_effective_wait_bound c6WitnessEnv c6WitnessOpts queryMeta0 1 c6WitnessResult
      (by decide) (by decide)).2.2.2.2.2.2⟩

/-- C9 is false as stated: with a 160ns requested wait (within bounds) and a
stagger draw that is a multiple of 160/16, the mutated MaxQueryTime equals
exactly the value the caller passed in. -/
theorem c9_counterexample :
    0 < c9Opts.minQueryIndex ∧
    (blockingRPC c9CounterEnv c9Opts queryMeta0 1).map
        (fun r => r.finalOpts.maxQueryTime) =
      some c9Opts.maxQueryTime := by
  exact ⟨by decide, by decide⟩

/-- C9 (amended): a blocking query mutates the caller-supplied options in
place, leaving MaxQueryTime at the clamped value plus the random jitter
(which may coincide with the caller's value when no clamping occurs and the
jitter is zero). -/
theorem c9_opts_mutation (env : BlockingEnv) (opts : QueryOptions)
    (meta : QueryMeta) (fuel : Nat) (r : BlockingResult)
    (hmin : 0 < opts.minQueryIndex)
    (h : blockingRPC env opts meta fuel = some r) :
    r.finalOpts.minQueryIndex = opts.minQueryIndex ∧
    r.finalOpts.maxQueryTime = effectiveQueryTime env opts.maxQueryTime := by
  rw [blockingRPC, if_neg (Nat.pos_iff_ne_zero.mp hmin)] at h
  obtain ⟨hopts, -, -⟩ := runQuery_state_invariant env _ true fuel 0 meta r h
  rw [hopts]
  exact ⟨rfl, rfl⟩

/-- Witness for C9 (amended) at a concrete input: the caller's 160ns becomes
163ns in place. -/
theorem c9_opts_mutation_witness :
    c9WitnessResult.finalOpts.minQueryIndex = c9Opts.minQueryIndex ∧
    c9WitnessResult.finalOpts.maxQueryTime =
      effectiveQueryTime c9WitnessEnv c9Opts.maxQueryTime :=
  c9_opts_mutation c9WitnessEnv c9Opts queryMeta0 1 c9WitnessResult
    (by decide) (by decide)

end Nomad
